import Mathlib

/-!
# Verification of `github-sync` (`main.go`)

A shallow embedding of the repository-sync-and-deploy pipeline of
`mikerybka/github-sync`. External effects (filesystem `stat`, the `git`,
`systemctl` and shell subprocesses, and the GitHub hooks API) are modelled
as explicit environment values handed to the embedded functions; each
embedded function returns, next to its outcome, the trace of external
actions it performed, so that ordering and short-circuit properties can be
stated. Nil-pointer dereferences in the Go source are modelled as a
distinguished `nilPanic` outcome.
-/

set_option autoImplicit false

namespace GithubSync

/-- Executable model of Go's `strings.TrimSpace`: drop whitespace characters
from both ends of the string. -/
def trimSpace (s : String) : String :=
  String.mk (((s.data.dropWhile Char.isWhitespace).reverse.dropWhile
    Char.isWhitespace).reverse)

/-- Result of one external command invocation: `exitErr` is `some e` when the
process exited non-zero (with `e` the Go error string, e.g. "exit status 1"),
and `output` is everything the process wrote to stdout/stderr combined. -/
structure CmdResult where
  exitErr : Option String
  output : String
deriving DecidableEq, Repr

/-- Result of the `git -C path rev-parse --abbrev-ref HEAD` query used by
`getBranch`: separate stdout and stderr buffers, and whether `Run` failed. -/
structure BranchQueryResult where
  failed : Bool
  stdout : String
  stderr : String
deriving DecidableEq, Repr

/-- Embeds `clone` (main.go lines 92-105): on failure the returned error is
`fmt.Errorf("git clone failed: %v\n%s", err, out)` with the untrimmed
combined output. -/
def clone (res : CmdResult) : Except String Unit :=
  match res.exitErr with
  | some e => Except.error ("git clone failed: " ++ e ++ "\n" ++ res.output)
  | none => Except.ok ()

/-- The `git clone` argument list built by `clone`: `--branch B --single-branch`
is inserted exactly when the configured branch is non-empty. -/
def cloneArgs (gitURL path branch : String) : List String :=
  let args := ["clone"]
  let args := if branch != "" then args ++ ["--branch", branch, "--single-branch"] else args
  args ++ [gitURL, path]

/-- Embeds `getBranch` (main.go lines 107-117): on failure the error is the
stderr buffer; on success the branch is the trimmed stdout. -/
def getBranch (res : BranchQueryResult) : Except String String :=
  if res.failed then Except.error res.stderr
  else Except.ok (trimSpace res.stdout)

/-- Embeds `pull` (main.go lines 119-127): on failure the error is
`fmt.Errorf("%s: %s", err, strings.TrimSpace(string(b)))`. -/
def pull (res : CmdResult) : Except String Unit :=
  match res.exitErr with
  | some e => Except.error (e ++ ": " ++ trimSpace res.output)
  | none => Except.ok ()

/-- Embeds `SystemdService` (main.go lines 150-156). -/
structure SystemdService where
  name : String
  env : List (String × String)
  start : String
  user : String
  dir : String
deriving DecidableEq, Repr

/-- Embeds `Repo` (main.go lines 143-148); `service` is a nil-able pointer. -/
structure Repo where
  id : String
  branch : String
  install : String
  service : Option SystemdService
deriving DecidableEq, Repr

/-- Embeds `HookConfig` (main.go lines 231-234). -/
structure HookConfig where
  url : String
  contentType : String
deriving DecidableEq, Repr

/-- Embeds `Hook` (main.go lines 224-229); `config` is a nil-able pointer. -/
structure Hook where
  name : String
  active : Bool
  events : List String
  config : Option HookConfig
deriving DecidableEq, Repr

/-- Embeds `includes` (main.go lines 215-222). -/
def includes (list : List String) (s : String) : Bool :=
  match list with
  | [] => false
  | item :: rest => if item == s then true else includes rest s

/-- The loop-body test of `registerHook` (main.go line 179) on one hook:
`hook.Config.URL == webhookURL && hook.Active && includes(hook.Events, "push")
&& hook.Config.ContentType == "json"`. Go dereferences `hook.Config` before
any test, so a nil `config` is a panic, modelled as `none`. -/
def hookMatches (webhookURL : String) (h : Hook) : Option Bool :=
  match h.config with
  | none => none
  | some c =>
      some (c.url == webhookURL && h.active && includes h.events "push"
            && c.contentType == "json")

/-- The scan over the hook list in `registerHook` (main.go lines 178-182).
`Except.error ()` is the nil-config panic; `Except.ok true` means some hook
already matches, `Except.ok false` means the whole list was scanned without
a match. -/
def findRegistered (webhookURL : String) : List Hook → Except Unit Bool
  | [] => Except.ok false
  | h :: rest =>
    match hookMatches webhookURL h with
    | none => Except.error ()
    | some true => Except.ok true
    | some false => findRegistered webhookURL rest

/-- The hook `registerHook` creates (main.go lines 185-193). -/
def newHook (webhookURL : String) : Hook :=
  { name := "web", active := true, events := ["push"],
    config := some { url := webhookURL, contentType := "json" } }

/-- Outcome of `registerHook`. `nilPanic` covers the nil-`Config` dereference
in the matching loop; `netErr` is a transport error from either HTTP call. -/
inductive RegisterOutcome
  | ok
  | netErr (e : String)
  | httpErr (status : Nat) (body : String)
  | nilPanic
deriving DecidableEq, Repr

/-- Embeds `registerHook` (main.go lines 158-213). The environment supplies
the decoded hook list of the GET (or its transport error) and the status and
body of the POST (or its transport error). The `Bool` component records
whether the create POST was performed. On a non-201 create response the
error is `fmt.Errorf("%d: %s", res.StatusCode, strings.TrimSpace(string(b)))`. -/
def registerHook (webhookURL : String) (listRes : Except String (List Hook))
    (createRes : Except String (Nat × String)) : RegisterOutcome × Bool :=
  match listRes with
  | Except.error e => (RegisterOutcome.netErr e, false)
  | Except.ok hooks =>
    match findRegistered webhookURL hooks with
    | Except.error _ => (RegisterOutcome.nilPanic, false)
    | Except.ok true => (RegisterOutcome.ok, false)
    | Except.ok false =>
      match createRes with
      | Except.error e => (RegisterOutcome.netErr e, true)
      | Except.ok (status, body) =>
        if status != 201 then (RegisterOutcome.httpErr status (trimSpace body), true)
        else (RegisterOutcome.ok, true)

/-- Embeds `GithubRepository` (main.go lines 331-334). -/
structure GithubRepository where
  name : String
  fullName : String
deriving DecidableEq, Repr

/-- Embeds `WebhookRequest` (main.go lines 327-329); `repository` is a
nil-able pointer, left nil by `encoding/json` when the key is absent. -/
structure WebhookRequest where
  repository : Option GithubRepository
deriving DecidableEq, Repr

/-- One external step performed by the deploy sequence of `webhookHandler`. -/
inductive Step
  | pull (dir : String)
  | stop (unit : String)
  | install (cmd : String) (dir : String)
  | daemonReload
  | start (unit : String)
deriving DecidableEq, Repr

/-- Outcome of one `webhookHandler` invocation: either an HTTP response
(status and body, where `http.Error` and `fmt.Fprintln` both append `"\n"`)
or a nil-pointer panic on the serving goroutine. -/
inductive HandlerOutcome
  | nilPanic
  | resp (status : Nat) (body : String)
deriving DecidableEq, Repr

/-- The results the environment supplies for the five external commands the
deploy sequence can run. -/
structure DeployEnv where
  pullRes : CmdResult
  stopRes : CmdResult
  installRes : CmdResult
  reloadRes : CmdResult
  startRes : CmdResult
deriving DecidableEq, Repr

/-- A conditional deploy step (the `if repo.Service.Name != ""` /
`if repo.Install != ""` guards): when the guard is false the step is skipped;
when it is true and the command fails, the step's Go error string is
returned (`cmd.Run` with stdout/stderr wired to the host process, so the
command's own output is NOT captured into the error). -/
def condStep (cond : Bool) (s : Step) (r : CmdResult) : Except String (List Step) :=
  if cond then
    match r.exitErr with
    | some e => Except.error e
    | none => Except.ok [s]
  else Except.ok []

/-- Embeds `webhookHandler` (main.go lines 236-325). `body` is the result of
decoding the request body into a `WebhookRequest` (error = malformed JSON,
carrying the decoder's message); `cfgRes` is the result of `readConfig`
(the configuration as an association list, Go map iteration aside). Returns
the HTTP outcome and the ordered trace of external steps performed. -/
def webhookHandler (homeDir : String) (elapsedMs : Nat)
    (body : Except String WebhookRequest)
    (cfgRes : Except String (List (String × Repo)))
    (env : DeployEnv) : HandlerOutcome × List Step :=
  match body with
  | Except.error e => (HandlerOutcome.resp 400 (e ++ "\n"), [])
  | Except.ok req =>
    match cfgRes with
    | Except.error e => (HandlerOutcome.resp 500 (e ++ "\n"), [])
    | Except.ok repos =>
      match req.repository with
      | none => (HandlerOutcome.nilPanic, [])
      | some gr =>
        let repoID := gr.fullName
        match List.lookup repoID repos with
        | none =>
            (HandlerOutcome.resp 400 ("repo " ++ repoID ++ " not configured" ++ "\n"), [])
        | some repo =>
          let path := homeDir ++ "/" ++ gr.name
          match pull env.pullRes with
          | Except.error e => (HandlerOutcome.resp 500 (e ++ "\n"), [Step.pull path])
          | Except.ok _ =>
            match repo.service with
            | none => (HandlerOutcome.nilPanic, [Step.pull path])
            | some svc =>
              let t1 := [Step.pull path]
              match condStep (svc.name != "") (Step.stop svc.name) env.stopRes with
              | Except.error e =>
                  (HandlerOutcome.resp 500 (e ++ "\n"), t1 ++ [Step.stop svc.name])
              | Except.ok s1 =>
                let t2 := t1 ++ s1
                match condStep (repo.install != "") (Step.install repo.install path)
                    env.installRes with
                | Except.error e =>
                    (HandlerOutcome.resp 500 (e ++ "\n"),
                     t2 ++ [Step.install repo.install path])
                | Except.ok s2 =>
                  let t3 := t2 ++ s2
                  match condStep (svc.name != "") Step.daemonReload env.reloadRes with
                  | Except.error e =>
                      (HandlerOutcome.resp 500 (e ++ "\n"), t3 ++ [Step.daemonReload])
                  | Except.ok s3 =>
                    let t4 := t3 ++ s3
                    match condStep (svc.name != "") (Step.start svc.name) env.startRes with
                    | Except.error e =>
                        (HandlerOutcome.resp 500 (e ++ "\n"), t4 ++ [Step.start svc.name])
                    | Except.ok s4 =>
                        (HandlerOutcome.resp 200
                          ("ok in " ++ toString elapsedMs ++ " ms" ++ "\n"),
                         t4 ++ s4)

/-- Result of the `os.Stat(path)` call in `main` (main.go line 34):
either `errors.Is(err, os.ErrNotExist)` with the error's text, some other
stat error, or success carrying whether the path is a directory. -/
inductive StatResult
  | notExist (e : String)
  | otherErr (e : String)
  | statOk (isDir : Bool)
deriving DecidableEq, Repr

/-- The per-repository external-world results the reconciliation loop of
`main` can consume. -/
structure RepoEnv where
  stat : StatResult
  cloneRes : CmdResult
  branchRes : BranchQueryResult
  pullRes : CmdResult
  hookList : Except String (List Hook)
  hookCreate : Except String (Nat × String)
deriving Repr

/-- One external action performed by the reconciliation loop. -/
inductive Action
  | cloneCmd (path gitURL branch : String)
  | branchQuery (path : String)
  | pullCmd (path : String)
  | registerCmd (id : String)
deriving DecidableEq, Repr

/-- Why `main` returned early (every error print in the loop is followed by
`return`, aborting the whole process); `panicked` is the nil-`Config`
dereference inside `registerHook`. -/
inductive FatalReason
  | statNotExist (e : String)
  | cloneFailed (id : String) (msg : String)
  | pathIsFile (path : String)
  | branchQueryFailed (e : String)
  | wrongBranch (id : String)
  | pullFailed (id : String) (msg : String)
  | registerFailed (msg : String)
  | panicked
deriving DecidableEq, Repr

/-- The `registerHook` call at the end of each loop iteration
(main.go lines 76-80): the register action always happens; its outcome
decides whether the loop continues (`none`) or `main` returns. -/
def registerStep (webhookURL id : String) (env : RepoEnv) (tr : List Action) :
    Option FatalReason × List Action :=
  (match (registerHook webhookURL env.hookList env.hookCreate).1 with
   | RegisterOutcome.ok => none
   | RegisterOutcome.netErr e => some (FatalReason.registerFailed e)
   | RegisterOutcome.httpErr status b =>
       some (FatalReason.registerFailed (toString status ++ ": " ++ b))
   | RegisterOutcome.nilPanic => some FatalReason.panicked,
   tr ++ [Action.registerCmd id])

/-- Embeds one iteration of the reconciliation loop of `main`
(main.go lines 30-81), exactly as written: a stat error satisfying
`errors.Is(err, os.ErrNotExist)` prints the error and returns, while every
OTHER stat error falls into the branch whose comment reads "If the folder
doesn't exist, clone" and runs `git clone`. `name` is
`strings.Split(id, "/")[1]` (Go panics when no "/" is present; configured
ids always contain one). -/
def reconcileRepo (homeDir webhookURL id : String) (repo : Repo) (env : RepoEnv) :
    Option FatalReason × List Action :=
  let name := (id.splitOn "/").getD 1 ""
  let path := homeDir ++ "/" ++ name
  match env.stat with
  | StatResult.notExist e => (some (FatalReason.statNotExist e), [])
  | StatResult.otherErr _ =>
      let gitURL := "https://github.com/" ++ id ++ ".git"
      match clone env.cloneRes with
      | Except.error msg =>
          (some (FatalReason.cloneFailed id msg), [Action.cloneCmd path gitURL repo.branch])
      | Except.ok _ => registerStep webhookURL id env [Action.cloneCmd path gitURL repo.branch]
  | StatResult.statOk isDir =>
      if !isDir then (some (FatalReason.pathIsFile path), [])
      else
        match getBranch env.branchRes with
        | Except.error e => (some (FatalReason.branchQueryFailed e), [Action.branchQuery path])
        | Except.ok branch =>
          if branch != repo.branch then
            (some (FatalReason.wrongBranch repo.id), [Action.branchQuery path])
          else
            match pull env.pullRes with
            | Except.error msg =>
                (some (FatalReason.pullFailed id msg),
                 [Action.branchQuery path, Action.pullCmd path])
            | Except.ok _ =>
                registerStep webhookURL id env [Action.branchQuery path, Action.pullCmd path]

/-- Embeds the whole reconciliation pass: the loop over the configuration
entries (each paired with its external-world results), stopping at the
first fatal outcome, accumulating the trace of external actions. -/
def reconcile (homeDir webhookURL : String) :
    List (String × Repo × RepoEnv) → Option FatalReason × List Action
  | [] => (none, [])
  | (id, repo, env) :: rest =>
    match reconcileRepo homeDir webhookURL id repo env with
    | (some r, tr) => (some r, tr)
    | (none, tr) =>
      let res := reconcile homeDir webhookURL rest
      (res.1, tr ++ res.2)

/-! ## Concrete fixtures used to evaluate the model -/

/-- A successful external command. -/
def okCmd : CmdResult := { exitErr := none, output := "" }

/-- A successful branch query whose stdout carries branch `b`. -/
def okBranch (b : String) : BranchQueryResult :=
  { failed := false, stdout := b ++ "\n", stderr := "" }

/-- A deploy environment in which every external command succeeds. -/
def allOkEnv : DeployEnv :=
  { pullRes := okCmd, stopRes := okCmd, installRes := okCmd,
    reloadRes := okCmd, startRes := okCmd }

/-- A minimal configured repository `a/b` tracking branch `main`. -/
def repoAB : Repo := { id := "a/b", branch := "main", install := "", service := none }

/-! ## Claim theorems -/

/-- C10: for a syntactically valid JSON body without a "repository" object
(such as "{}"), decoding succeeds with a nil `Repository` pointer and the
handler dereferences it: the outcome is a panic, never a 400 response. -/
theorem webhookHandler_nil_repository_panics (homeDir : String) (ms : Nat)
    (repos : List (String × Repo)) (env : DeployEnv) :
    webhookHandler homeDir ms (Except.ok { repository := none }) (Except.ok repos) env
        = (HandlerOutcome.nilPanic, [])
      ∧ ∀ b, (webhookHandler homeDir ms (Except.ok { repository := none })
          (Except.ok repos) env).1 ≠ HandlerOutcome.resp 400 b := by
  refine ⟨rfl, ?_⟩
  intro b h
  simp [webhookHandler] at h

/-- C8: a webhook delivery naming a repository absent from the freshly read
configuration yields a 400 response and an empty trace of external steps. -/
theorem webhookHandler_unknown_repo (homeDir : String) (ms : Nat)
    (gr : GithubRepository) (repos : List (String × Repo)) (env : DeployEnv)
    (hlook : List.lookup gr.fullName repos = none) :
    webhookHandler homeDir ms (Except.ok { repository := some gr }) (Except.ok repos) env
      = (HandlerOutcome.resp 400 ("repo " ++ gr.fullName ++ " not configured" ++ "\n"),
         []) := by
  simp [webhookHandler, hlook]

/-- Witness for C8 at a concrete delivery against an empty configuration. -/
theorem webhookHandler_unknown_repo_checked :
    webhookHandler "/h" 1 (Except.ok { repository := some { name := "b", fullName := "a/b" } })
      (Except.ok []) allOkEnv
      = (HandlerOutcome.resp 400 ("repo " ++ "a/b" ++ " not configured" ++ "\n"), []) :=
  webhookHandler_unknown_repo "/h" 1 { name := "b", fullName := "a/b" } [] allOkEnv rfl

/-- C1: evaluation of the reconciliation loop when `os.Stat` fails with
`ErrNotExist` (the Absent state): the code prints the stat error and returns,
performing NO external action at all — in particular no clone — contradicting
the spec's "If Absent: clone" and the code's own comment. -/
theorem stat_not_exist_aborts (homeDir webhookURL id : String) (repo : Repo)
    (env : RepoEnv) (e : String) (hstat : env.stat = StatResult.notExist e) :
    reconcileRepo homeDir webhookURL id repo env
      = (some (FatalReason.statNotExist e), []) := by
  simp [reconcileRepo, hstat]

/-- Witness for C1: concrete repository `a/b` with an absent local path. -/
theorem stat_not_exist_aborts_checked :
    reconcileRepo "/h" "https://cb.example" "a/b" repoAB
        { stat := StatResult.notExist "stat /h/b: no such file or directory",
          cloneRes := okCmd, branchRes := okBranch "main", pullRes := okCmd,
          hookList := Except.ok [], hookCreate := Except.ok (201, "") }
      = (some (FatalReason.statNotExist "stat /h/b: no such file or directory"), []) :=
  stat_not_exist_aborts "/h" "https://cb.example" "a/b" repoAB _ _ rfl

/-- C6: evaluation of the reconciliation loop when `os.Stat` fails with an
error OTHER than not-found (e.g. permission denied): the code falls into the
clone branch, so the first external action performed is a `git clone` —
contradicting the spec's "any other filesystem error is fatal and no clone
is attempted". -/
theorem stat_other_error_clones (homeDir webhookURL id : String) (repo : Repo)
    (env : RepoEnv) (e : String) (hstat : env.stat = StatResult.otherErr e) :
    (reconcileRepo homeDir webhookURL id repo env).2.head?
      = some (Action.cloneCmd (homeDir ++ "/" ++ (id.splitOn "/").getD 1 "")
          ("https://github.com/" ++ id ++ ".git") repo.branch) := by
  rcases hc : clone env.cloneRes with msg | u <;>
    simp [reconcileRepo, hstat, hc, registerStep]

/-- Witness for C6: a permission-denied stat error leads to a clone attempt. -/
theorem stat_other_error_clones_checked :
    (reconcileRepo "/h" "https://cb.example" "a/b" repoAB
        { stat := StatResult.otherErr "stat /h/b: permission denied",
          cloneRes := okCmd, branchRes := okBranch "main", pullRes := okCmd,
          hookList := Except.ok [], hookCreate := Except.ok (201, "") }).2.head?
      = some (Action.cloneCmd ("/h" ++ "/" ++ (("a/b").splitOn "/").getD 1 "")
          ("https://github.com/" ++ "a/b" ++ ".git") repoAB.branch) :=
  stat_other_error_clones "/h" "https://cb.example" "a/b" repoAB _ _ rfl

/-- C5: when the local path is a directory and the branch query reports a
branch different from the configured one, the whole reconciliation pass stops
with the wrong-branch error; the only external action taken for that
repository is the branch query — no pull — and no later repository is
processed. -/
theorem wrong_branch_aborts (homeDir webhookURL id : String) (repo : Repo)
    (env : RepoEnv) (rest : List (String × Repo × RepoEnv)) (b : String)
    (hstat : env.stat = StatResult.statOk true)
    (hbr : getBranch env.branchRes = Except.ok b)
    (hne : b ≠ repo.branch) :
    reconcile homeDir webhookURL ((id, repo, env) :: rest)
      = (some (FatalReason.wrongBranch repo.id),
         [Action.branchQuery (homeDir ++ "/" ++ (id.splitOn "/").getD 1 "")]) := by
  have hb : (b != repo.branch) = true := by simp [bne_iff_ne, hne]
  simp [reconcile, reconcileRepo, hstat, hbr, hb]

/-- Witness for C5: a checkout on `dev` against configured branch `main`. -/
theorem wrong_branch_aborts_checked :
    reconcile "/h" "https://cb.example"
        [("a/b", repoAB,
          { stat := StatResult.statOk true, cloneRes := okCmd,
            branchRes := okBranch "dev", pullRes := okCmd,
            hookList := Except.ok [], hookCreate := Except.ok (201, "") })]
      = (some (FatalReason.wrongBranch repoAB.id),
         [Action.branchQuery ("/h" ++ "/" ++ (("a/b").splitOn "/").getD 1 "")]) :=
  wrong_branch_aborts "/h" "https://cb.example" "a/b" repoAB _ [] "dev" rfl rfl
    (by decide)

/-- C2 counterexample: a delivery for a repository configured with NO service
object at all (`service` nil). The handler dereferences `repo.Service.Name`
and panics after the pull; it does not complete with a success response as
the claim states for the "no configured service" case. -/
theorem nil_service_panics_after_pull :
    webhookHandler "/h" 5
        (Except.ok { repository := some { name := "b", fullName := "a/b" } })
        (Except.ok [("a/b",
          { id := "a/b", branch := "main", install := "make", service := none })])
        allOkEnv
      = (HandlerOutcome.nilPanic, [Step.pull "/h/b"])
    ∧ (webhookHandler "/h" 5
        (Except.ok { repository := some { name := "b", fullName := "a/b" } })
        (Except.ok [("a/b",
          { id := "a/b", branch := "main", install := "make", service := none })])
        allOkEnv).1
      ≠ HandlerOutcome.resp 200 ("ok in " ++ toString 5 ++ " ms" ++ "\n") := by
  decide

/-- C2 amended: for a repository whose configured service object is present
but has an empty unit name, the deploy sequence performs pull and (when the
install command is non-empty) install only — no stop, daemon-reload or start
step appears in the trace — and the handler responds 200. -/
theorem empty_service_name_skips_systemctl (homeDir : String) (ms : Nat)
    (gr : GithubRepository) (repos : List (String × Repo)) (repo : Repo)
    (svc : SystemdService) (env : DeployEnv)
    (hlook : List.lookup gr.fullName repos = some repo)
    (hsvc : repo.service = some svc)
    (hname : svc.name = "")
    (hpull : env.pullRes.exitErr = none)
    (hinstall : env.installRes.exitErr = none) :
    webhookHandler homeDir ms (Except.ok { repository := some gr }) (Except.ok repos) env
      = (HandlerOutcome.resp 200 ("ok in " ++ toString ms ++ " ms" ++ "\n"),
         Step.pull (homeDir ++ "/" ++ gr.name) ::
           (if repo.install != "" then
              [Step.install repo.install (homeDir ++ "/" ++ gr.name)]
            else [])) := by
  by_cases hi : repo.install = "" <;>
    simp [webhookHandler, hlook, pull, hpull, hsvc, hname, hi, condStep, hinstall,
      bne_iff_ne]

/-- Witness for the amended C2 at a concrete delivery. -/
theorem empty_service_name_skips_systemctl_checked :
    webhookHandler "/h" 5
        (Except.ok { repository := some { name := "b", fullName := "a/b" } })
        (Except.ok [("a/b",
          { id := "a/b", branch := "main", install := "make",
            service := some { name := "", env := [], start := "", user := "", dir := "" } })])
        allOkEnv
      = (HandlerOutcome.resp 200 ("ok in " ++ toString 5 ++ " ms" ++ "\n"),
         [Step.pull "/h/b", Step.install "make" "/h/b"]) :=
  empty_service_name_skips_systemctl "/h" 5 { name := "b", fullName := "a/b" } _
    { id := "a/b", branch := "main", install := "make",
      service := some { name := "", env := [], start := "", user := "", dir := "" } }
    { name := "", env := [], start := "", user := "", dir := "" } allOkEnv
    rfl rfl rfl rfl rfl

/-- C3: for a configured repository with a non-empty service name and a
non-empty install command, a successful delivery performs exactly, in order:
pull in the checkout, systemctl stop of the unit, the install command in the
checkout, daemon-reload, systemctl start of the unit, then responds 200 with
body "ok in N ms" carrying the elapsed milliseconds. -/
theorem deploy_sequence_order (homeDir : String) (ms : Nat)
    (gr : GithubRepository) (repos : List (String × Repo)) (repo : Repo)
    (svc : SystemdService) (env : DeployEnv)
    (hlook : List.lookup gr.fullName repos = some repo)
    (hsvc : repo.service = some svc)
    (hname : svc.name ≠ "")
    (hinst : repo.install ≠ "")
    (hpull : env.pullRes.exitErr = none)
    (hstop : env.stopRes.exitErr = none)
    (hinstall : env.installRes.exitErr = none)
    (hreload : env.reloadRes.exitErr = none)
    (hstart : env.startRes.exitErr = none) :
    webhookHandler homeDir ms (Except.ok { repository := some gr }) (Except.ok repos) env
      = (HandlerOutcome.resp 200 ("ok in " ++ toString ms ++ " ms" ++ "\n"),
         [Step.pull (homeDir ++ "/" ++ gr.name), Step.stop svc.name,
          Step.install repo.install (homeDir ++ "/" ++ gr.name), Step.daemonReload,
          Step.start svc.name]) := by
  simp [webhookHandler, hlook, pull, hpull, hsvc, condStep, hstop, hinstall, hreload,
    hstart, bne_iff_ne, hname, hinst]

/-- Witness for C3: the spec's scenario — repository `a/b`, service `svc`,
install command "make build". -/
theorem deploy_sequence_order_checked :
    webhookHandler "/h" 5
        (Except.ok { repository := some { name := "b", fullName := "a/b" } })
        (Except.ok [("a/b",
          { id := "a/b", branch := "main", install := "make build",
            service := some { name := "svc", env := [], start := "", user := "", dir := "" } })])
        allOkEnv
      = (HandlerOutcome.resp 200 ("ok in " ++ toString 5 ++ " ms" ++ "\n"),
         [Step.pull "/h/b", Step.stop "svc", Step.install "make build" "/h/b",
          Step.daemonReload, Step.start "svc"]) :=
  deploy_sequence_order "/h" 5 { name := "b", fullName := "a/b" } _
    { id := "a/b", branch := "main", install := "make build",
      service := some { name := "svc", env := [], start := "", user := "", dir := "" } }
    { name := "svc", env := [], start := "", user := "", dir := "" } allOkEnv
    rfl rfl (by decide) (by decide) rfl rfl rfl rfl rfl

/-- C4 counterexample: the install step runs with stdout/stderr wired to the
host process, so when it fails the 500 body is the Go exit-error string, not
the install command's output — here the body is "exit status 2\n" while the
command's output was "build failed". -/
theorem install_error_text_is_exit_error :
    webhookHandler "/h" 5
        (Except.ok { repository := some { name := "b", fullName := "a/b" } })
        (Except.ok [("a/b",
          { id := "a/b", branch := "main", install := "make build",
            service := some { name := "svc", env := [], start := "", user := "", dir := "" } })])
        { pullRes := okCmd, stopRes := okCmd,
          installRes := { exitErr := some "exit status 2", output := "build failed" },
          reloadRes := okCmd, startRes := okCmd }
      = (HandlerOutcome.resp 500 ("exit status 2" ++ "\n"),
         [Step.pull "/h/b", Step.stop "svc", Step.install "make build" "/h/b"])
    ∧ "exit status 2" ++ "\n" ≠ "build failed"
    ∧ "exit status 2" ++ "\n" ≠ "build failed" ++ "\n" := by
  decide

/-- C4 amended: when the install step fails, the daemon-reload and start
steps are never attempted and the response is a 500 whose text is the
install step's Go exit-error string (its output is streamed to the host
process, not captured into the response). -/
theorem install_failure_short_circuits (homeDir : String) (ms : Nat)
    (gr : GithubRepository) (repos : List (String × Repo)) (repo : Repo)
    (svc : SystemdService) (env : DeployEnv) (e : String)
    (hlook : List.lookup gr.fullName repos = some repo)
    (hsvc : repo.service = some svc)
    (hname : svc.name ≠ "")
    (hinst : repo.install ≠ "")
    (hpull : env.pullRes.exitErr = none)
    (hstop : env.stopRes.exitErr = none)
    (hfail : env.installRes.exitErr = some e) :
    webhookHandler homeDir ms (Except.ok { repository := some gr }) (Except.ok repos) env
      = (HandlerOutcome.resp 500 (e ++ "\n"),
         [Step.pull (homeDir ++ "/" ++ gr.name), Step.stop svc.name,
          Step.install repo.install (homeDir ++ "/" ++ gr.name)]) := by
  simp [webhookHandler, hlook, pull, hpull, hsvc, condStep, hstop, hfail,
    bne_iff_ne, hname, hinst]

/-- Witness for the amended C4 at a concrete failing install. -/
theorem install_failure_short_circuits_checked :
    webhookHandler "/h" 5
        (Except.ok { repository := some { name := "b", fullName := "a/b" } })
        (Except.ok [("a/b",
          { id := "a/b", branch := "main", install := "make build",
            service := some { name := "svc", env := [], start := "", user := "", dir := "" } })])
        { pullRes := okCmd, stopRes := okCmd,
          installRes := { exitErr := some "exit status 2", output := "build failed" },
          reloadRes := okCmd, startRes := okCmd }
      = (HandlerOutcome.resp 500 ("exit status 2" ++ "\n"),
         [Step.pull "/h/b", Step.stop "svc", Step.install "make build" "/h/b"]) :=
  install_failure_short_circuits "/h" 5 { name := "b", fullName := "a/b" } _
    { id := "a/b", branch := "main", install := "make build",
      service := some { name := "svc", env := [], start := "", user := "", dir := "" } }
    { name := "svc", env := [], start := "", user := "", dir := "" }
    { pullRes := okCmd, stopRes := okCmd,
      installRes := { exitErr := some "exit status 2", output := "build failed" },
      reloadRes := okCmd, startRes := okCmd }
    "exit status 2" rfl rfl (by decide) (by decide) rfl rfl rfl

/-- Scanning a list that contains no match and no nil config continues into
the appended suffix. -/
theorem findRegistered_append_of_none (url : String) (l l2 : List Hook)
    (h : findRegistered url l = Except.ok false) :
    findRegistered url (l ++ l2) = findRegistered url l2 := by
  induction l with
  | nil => simp
  | cons hd tl ih =>
    simp only [List.cons_append, findRegistered] at h ⊢
    cases hm : hookMatches url hd with
    | none => simp [hm] at h
    | some b =>
      cases b with
      | true => simp [hm] at h
      | false =>
        simp only [hm] at h ⊢
        exact ih h

/-- The hook `registerHook` creates satisfies its own idempotency predicate. -/
theorem findRegistered_newHook (url : String) :
    findRegistered url [newHook url] = Except.ok true := by
  simp [findRegistered, hookMatches, newHook, includes]

/-- C7: webhook registration is idempotent — when some listed hook already
matches the predicate (URL equality, active, push event, json content-type)
the call succeeds without creating; when none matches, exactly one create is
performed, the created hook itself matches the predicate, and a second call
whose listing includes the created hook performs no create. -/
theorem registerHook_idempotent (url b : String) (hooks : List Hook)
    (cr cr2 : Except String (Nat × String)) :
    (findRegistered url hooks = Except.ok true →
       registerHook url (Except.ok hooks) cr = (RegisterOutcome.ok, false))
    ∧ (findRegistered url hooks = Except.ok false →
       hookMatches url (newHook url) = some true
       ∧ registerHook url (Except.ok hooks) (Except.ok (201, b))
           = (RegisterOutcome.ok, true)
       ∧ registerHook url (Except.ok (hooks ++ [newHook url])) cr2
           = (RegisterOutcome.ok, false)) := by
  constructor
  · intro h
    simp [registerHook, h]
  · intro h
    refine ⟨by simp [hookMatches, newHook, includes], by simp [registerHook, h], ?_⟩
    have h2 : findRegistered url (hooks ++ [newHook url]) = Except.ok true := by
      rw [findRegistered_append_of_none url hooks [newHook url] h,
        findRegistered_newHook]
    simp [registerHook, h2]

/-- Witness for C7: first call against an empty hook list creates; the second
call, whose listing now carries the created hook, performs no create even
though its create response would be a 500. -/
theorem registerHook_idempotent_checked :
    registerHook "https://cb.example" (Except.ok []) (Except.ok (201, ""))
      = (RegisterOutcome.ok, true)
    ∧ registerHook "https://cb.example"
        (Except.ok ([] ++ [newHook "https://cb.example"])) (Except.ok (500, "boom"))
      = (RegisterOutcome.ok, false) := by
  have h := (registerHook_idempotent "https://cb.example" "" [] (Except.ok (201, ""))
    (Except.ok (500, "boom"))).2 rfl
  exact ⟨h.2.1, h.2.2⟩

/-- C9: when no listed hook matches and the create POST answers with a status
other than 201, `registerHook` returns the error carrying that status and the
trimmed response body; on a 201 answer it returns success. -/
theorem registerHook_create_status (url b : String) (hooks : List Hook) (s : Nat)
    (hnomatch : findRegistered url hooks = Except.ok false) :
    (s ≠ 201 →
       registerHook url (Except.ok hooks) (Except.ok (s, b))
         = (RegisterOutcome.httpErr s (trimSpace b), true))
    ∧ registerHook url (Except.ok hooks) (Except.ok (201, b))
        = (RegisterOutcome.ok, true) := by
  constructor
  · intro hs
    simp [registerHook, hnomatch, bne_iff_ne, hs]
  · simp [registerHook, hnomatch]

/-- Witness for C9: a 404 create response surfaces as the status plus trimmed
body, while a 201 response is success. -/
theorem registerHook_create_status_checked :
    registerHook "https://cb.example" (Except.ok []) (Except.ok (404, " Not Found "))
      = (RegisterOutcome.httpErr 404 "Not Found", true)
    ∧ registerHook "https://cb.example" (Except.ok []) (Except.ok (201, " Not Found "))
      = (RegisterOutcome.ok, true) := by
  have h := registerHook_create_status "https://cb.example" " Not Found " [] 404 rfl
  refine ⟨?_, h.2⟩
  have h1 := h.1 (by decide)
  have h2 : (RegisterOutcome.httpErr 404 (trimSpace " Not Found "), true)
      = ((RegisterOutcome.httpErr 404 "Not Found", true) : RegisterOutcome × Bool) := by
    decide
  exact h1.trans h2

end GithubSync
